import Mathlib

/-!
# GC tracing: cycle-info records and the tracer hierarchy

A shallow embedding of `src/share/vm/gc_implementation/shared/gcTrace.hpp`.

The header defines, inline, the value classes `SharedGCInfo`, `ParallelOldGCInfo`,
`YoungGCInfo`, `G1YoungGCInfo` and the constructors of the tracer classes; these are
embedded field by field.  The member functions that the header only declares
(`report_gc_start`, `report_gc_end`, `has_reported_gc_start`, the `report_gc_*_impl`
hooks, the fact-reporting entry points and the `send_*` functions) have their bodies in
`gcTrace.cpp`, which is not among the sources; they are modelled from the specification
and every such definition says so in its doc comment.

Conventions: a C++ object is a Lean structure, a mutating member function returns the
updated object, a member function that may emit events returns the updated object paired
with the list of emitted events, and a failed protocol assertion is an `Except` error.
-/

/-! ## Primitive types -/

/-- The type `jlong` (64-bit signed).  The header only stores and returns such values and does
no arithmetic on them, so they are taken as mathematical integers. -/
abbrev jlong := Int

/-- The type `GCId`, declared as `typedef uint GCId;` (32-bit unsigned). -/
abbrev GCId := Nat

/-- The type `size_t`. -/
abbrev size_t := Nat

/-- The type `uint`. -/
abbrev uint := Nat

/-- An untyped address, `void*`. -/
abbrev VoidPtr := Nat

/-- The null address `NULL`. -/
def NULL : VoidPtr := 0

/-- Modelled from the spec: the enumeration `GCName` is declared in `gc_interface/gcName.hpp`,
which is not among the sources.  The enumerators listed are the collector identities the
tracer constructors of `gcTrace.hpp` name. -/
inductive GCName where
  | ParallelOld
  | SerialOld
  | ParallelScavenge
  | DefNew
  | ParNew
  | G1New
  | ConcurrentMarkSweep
  | G1Old
deriving DecidableEq

namespace GCCause

/-- Modelled from the spec: the enumeration `GCCause::Cause` is declared in
`gc_interface/gcCause.hpp`, which is not among the sources.  The spec calls it the
enumerated trigger reason of a cycle (allocation failure, explicit request) with a
"last/unset" sentinel; the header names that sentinel `_last_gc_cause`. -/
inductive Cause where
  | _java_lang_system_gc
  | _allocation_failure
  | _last_gc_cause
deriving DecidableEq

end GCCause

/-- Modelled from the spec: the enumeration `G1YCType` is declared in
`gc_implementation/g1/g1YCTypes.hpp`, which is not among the sources.  The spec calls it
the classification of the young-collection flavour (ordinary, mixed) with an explicit end
sentinel; the header names that sentinel `G1YCTypeEndSentinel`. -/
inductive G1YCType where
  | Normal
  | Mixed
  | G1YCTypeEndSentinel
deriving DecidableEq

/-! ## `SharedGCInfo` (header lines 45-84) -/

/-- The class `SharedGCInfo`: the envelope shared by every collector variant. -/
structure SharedGCInfo where
  _id : GCId
  _name : GCName
  _cause : GCCause.Cause
  _start_timestamp : jlong
  _end_timestamp : jlong
  _sum_of_pauses : jlong
  _longest_pause : jlong
deriving DecidableEq

/-- The constant `static const jlong UNSET_TIMESTAMP = -1;`. -/
def SharedGCInfo.UNSET_TIMESTAMP : jlong := -1

/-- The constant `static const GCId UNSET_GCID = (GCId)-1;`: minus one converted to the
32-bit unsigned type. -/
def SharedGCInfo.UNSET_GCID : GCId := ((-1 : Int) % 2 ^ 32).toNat

/-- The constructor `SharedGCInfo(GCName name)`. -/
def SharedGCInfo.new (name : GCName) : SharedGCInfo :=
  { _id := SharedGCInfo.UNSET_GCID
    _name := name
    _cause := GCCause.Cause._last_gc_cause
    _start_timestamp := SharedGCInfo.UNSET_TIMESTAMP
    _end_timestamp := SharedGCInfo.UNSET_TIMESTAMP
    _sum_of_pauses := 0
    _longest_pause := 0 }

/-- The setter `set_id`. -/
def SharedGCInfo.set_id (s : SharedGCInfo) (id : GCId) : SharedGCInfo :=
  { s with _id := id }

/-- The getter `id()`. -/
def SharedGCInfo.id (s : SharedGCInfo) : GCId := s._id

/-- The setter `set_start_timestamp`. -/
def SharedGCInfo.set_start_timestamp (s : SharedGCInfo) (timestamp : jlong) : SharedGCInfo :=
  { s with _start_timestamp := timestamp }

/-- The getter `start_timestamp()`. -/
def SharedGCInfo.start_timestamp (s : SharedGCInfo) : jlong := s._start_timestamp

/-- The setter `set_end_timestamp`. -/
def SharedGCInfo.set_end_timestamp (s : SharedGCInfo) (timestamp : jlong) : SharedGCInfo :=
  { s with _end_timestamp := timestamp }

/-- The getter `end_timestamp()`. -/
def SharedGCInfo.end_timestamp (s : SharedGCInfo) : jlong := s._end_timestamp

/-- The setter `set_name`. -/
def SharedGCInfo.set_name (s : SharedGCInfo) (name : GCName) : SharedGCInfo :=
  { s with _name := name }

/-- The getter `name()`. -/
def SharedGCInfo.name (s : SharedGCInfo) : GCName := s._name

/-- The setter `set_cause`. -/
def SharedGCInfo.set_cause (s : SharedGCInfo) (cause : GCCause.Cause) : SharedGCInfo :=
  { s with _cause := cause }

/-- The getter `cause()`. -/
def SharedGCInfo.cause (s : SharedGCInfo) : GCCause.Cause := s._cause

/-- The setter `set_sum_of_pauses`. -/
def SharedGCInfo.set_sum_of_pauses (s : SharedGCInfo) (duration : jlong) : SharedGCInfo :=
  { s with _sum_of_pauses := duration }

/-- The getter `sum_of_pauses()`. -/
def SharedGCInfo.sum_of_pauses (s : SharedGCInfo) : jlong := s._sum_of_pauses

/-- The setter `set_longest_pause`. -/
def SharedGCInfo.set_longest_pause (s : SharedGCInfo) (duration : jlong) : SharedGCInfo :=
  { s with _longest_pause := duration }

/-- The getter `longest_pause()`. -/
def SharedGCInfo.longest_pause (s : SharedGCInfo) : jlong := s._longest_pause

/-! ## `ParallelOldGCInfo`, `YoungGCInfo`, `G1YoungGCInfo` (header lines 86-116) -/

/-- The class `ParallelOldGCInfo`. -/
structure ParallelOldGCInfo where
  _dense_prefix : VoidPtr
deriving DecidableEq

/-- The constructor `ParallelOldGCInfo()`. -/
def ParallelOldGCInfo.new : ParallelOldGCInfo :=
  { _dense_prefix := NULL }

/-- The member `report_dense_prefix(void* addr)`. -/
def ParallelOldGCInfo.report_dense_prefix (s : ParallelOldGCInfo) (addr : VoidPtr) :
    ParallelOldGCInfo :=
  { s with _dense_prefix := addr }

/-- The getter `dense_prefix()`. -/
def ParallelOldGCInfo.dense_prefix (s : ParallelOldGCInfo) : VoidPtr := s._dense_prefix

/-- The class `YoungGCInfo`. -/
structure YoungGCInfo where
  _promotion_failed : Bool
deriving DecidableEq

/-- The constructor `YoungGCInfo()`. -/
def YoungGCInfo.new : YoungGCInfo :=
  { _promotion_failed := false }

/-- The member `register_promotion_failed()`. -/
def YoungGCInfo.register_promotion_failed (s : YoungGCInfo) : YoungGCInfo :=
  { s with _promotion_failed := true }

/-- The getter `promotion_failed()`. -/
def YoungGCInfo.promotion_failed (s : YoungGCInfo) : Bool := s._promotion_failed

/-- The class `G1YoungGCInfo` (compiled unless `SERIALGC` is defined). -/
structure G1YoungGCInfo where
  _type : G1YCType
deriving DecidableEq

/-- The constructor `G1YoungGCInfo()`. -/
def G1YoungGCInfo.new : G1YoungGCInfo :=
  { _type := G1YCType.G1YCTypeEndSentinel }

/-- The member `set_type(G1YCType type)`. -/
def G1YoungGCInfo.set_type (s : G1YoungGCInfo) (type : G1YCType) : G1YoungGCInfo :=
  { s with _type := type }

/-- The getter `type()`. -/
def G1YoungGCInfo.type (s : G1YoungGCInfo) : G1YCType := s._type

/-! ## The tracer classes and their constructors (header lines 120-231) -/

/-- The class `GCTracer`: owns the shared cycle info. -/
structure GCTracer where
  _shared_gc_info : SharedGCInfo
deriving DecidableEq

/-- The constructor `GCTracer(GCName name) : _shared_gc_info(name)`. -/
def GCTracer.new (name : GCName) : GCTracer :=
  { _shared_gc_info := SharedGCInfo.new name }

/-- The class `YoungGCTracer : public GCTracer`. -/
structure YoungGCTracer extends GCTracer where
  _young_gc_info : YoungGCInfo
deriving DecidableEq

/-- The constructor `YoungGCTracer(GCName name) : GCTracer(name)`. -/
def YoungGCTracer.new (name : GCName) : YoungGCTracer :=
  { toGCTracer := GCTracer.new name
    _young_gc_info := YoungGCInfo.new }

/-- The accessor `young_gc_info()`. -/
def YoungGCTracer.young_gc_info (y : YoungGCTracer) : YoungGCInfo := y._young_gc_info

/-- The class `OldGCTracer : public GCTracer`. -/
structure OldGCTracer extends GCTracer
deriving DecidableEq

/-- The constructor `OldGCTracer(GCName name) : GCTracer(name)`. -/
def OldGCTracer.new (name : GCName) : OldGCTracer :=
  { toGCTracer := GCTracer.new name }

/-- The class `ParallelOldTracer : public OldGCTracer`. -/
structure ParallelOldTracer extends OldGCTracer where
  _parallel_old_gc_info : ParallelOldGCInfo
deriving DecidableEq

/-- The constructor `ParallelOldTracer() : OldGCTracer(ParallelOld)`. -/
def ParallelOldTracer.new : ParallelOldTracer :=
  { toOldGCTracer := OldGCTracer.new GCName.ParallelOld
    _parallel_old_gc_info := ParallelOldGCInfo.new }

/-- The class `SerialOldTracer : public OldGCTracer`. -/
structure SerialOldTracer extends OldGCTracer
deriving DecidableEq

/-- The constructor `SerialOldTracer() : OldGCTracer(SerialOld)`. -/
def SerialOldTracer.new : SerialOldTracer :=
  { toOldGCTracer := OldGCTracer.new GCName.SerialOld }

/-- The class `ParallelScavengeTracer : public YoungGCTracer`. -/
structure ParallelScavengeTracer extends YoungGCTracer
deriving DecidableEq

/-- The constructor `ParallelScavengeTracer() : YoungGCTracer(ParallelScavenge)`. -/
def ParallelScavengeTracer.new : ParallelScavengeTracer :=
  { toYoungGCTracer := YoungGCTracer.new GCName.ParallelScavenge }

/-- The class `DefNewTracer : public YoungGCTracer`. -/
structure DefNewTracer extends YoungGCTracer
deriving DecidableEq

/-- The constructor `DefNewTracer() : YoungGCTracer(DefNew)`. -/
def DefNewTracer.new : DefNewTracer :=
  { toYoungGCTracer := YoungGCTracer.new GCName.DefNew }

/-- The class `ParNewTracer : public YoungGCTracer`. -/
structure ParNewTracer extends YoungGCTracer
deriving DecidableEq

/-- The constructor `ParNewTracer() : YoungGCTracer(ParNew)`. -/
def ParNewTracer.new : ParNewTracer :=
  { toYoungGCTracer := YoungGCTracer.new GCName.ParNew }

/-- The class `G1NewTracer : public YoungGCTracer` (compiled unless `SERIALGC` is defined). -/
structure G1NewTracer extends YoungGCTracer where
  _g1_young_gc_info : G1YoungGCInfo
deriving DecidableEq

/-- The constructor `G1NewTracer() : YoungGCTracer(G1New)`. -/
def G1NewTracer.new : G1NewTracer :=
  { toYoungGCTracer := YoungGCTracer.new GCName.G1New
    _g1_young_gc_info := G1YoungGCInfo.new }

/-- The class `CMSTracer : public OldGCTracer`. -/
structure CMSTracer extends OldGCTracer
deriving DecidableEq

/-- The constructor `CMSTracer() : OldGCTracer(ConcurrentMarkSweep)`. -/
def CMSTracer.new : CMSTracer :=
  { toOldGCTracer := OldGCTracer.new GCName.ConcurrentMarkSweep }

/-- The class `G1OldTracer : public OldGCTracer`. -/
structure G1OldTracer extends OldGCTracer
deriving DecidableEq

/-- The constructor `G1OldTracer() : OldGCTracer(G1Old)`. -/
def G1OldTracer.new : G1OldTracer :=
  { toOldGCTracer := OldGCTracer.new GCName.G1Old }

/-! ## External value objects and events

The classes below are only forward-declared or included by the header; their declarations
are not among the sources. -/

/-- Modelled from the spec: the enumeration `GCWhen::Type` is declared in
`gc_implementation/shared/gcWhen.hpp`, which is not among the sources.  The spec: a
heap-summary event is "tagged with `when` (before/after the cycle)". -/
inductive GCWhen where
  | BeforeGC
  | AfterGC
deriving DecidableEq

/-- Modelled from the spec: the enumeration `ReferenceType` is declared in
`memory/referenceType.hpp`, which is not among the sources.  The spec calls it the
"reference-strength category". -/
inductive ReferenceType where
  | REF_SOFT
  | REF_WEAK
  | REF_FINAL
  | REF_PHANTOM
deriving DecidableEq

/-- Modelled from the spec: the class `GCHeapSummary` is only forward-declared by the header.
The spec: a "point-in-time occupancy snapshot". -/
structure GCHeapSummary where
  used : size_t
deriving DecidableEq

/-- Modelled from the spec: the class `PermGenSummary` is only forward-declared by the header.
The spec: a "point-in-time occupancy snapshot" of the permanent area. -/
structure PermGenSummary where
  used : size_t
deriving DecidableEq

/-- Modelled from the spec: the class `ReferenceProcessorStats` is only forward-declared by
the header.  The spec: "counts of discovered/cleared references, per reference-strength
category"; here one count for each category present. -/
abbrev ReferenceProcessorStats := List (ReferenceType × size_t)

/-- Modelled from the spec: one entry of the class `TimePartitions`, which is only
forward-declared by the header: a "named sub-phase duration". -/
structure GCPhase where
  name : String
  duration : jlong
deriving DecidableEq

/-- Modelled from the spec: the class `TimePartitions` is only forward-declared by the header.
The spec: "a sequence of named sub-phase durations making up the cycle". -/
abbrev TimePartitions := List GCPhase

/-- The value a 64-bit signed integer holds for the mathematical integer `x`: two's
complement wrap-around into the range from -2^63 to 2^63 - 1. -/
def jlong.wrap (x : Int) : Int :=
  (x + 9223372036854775808) % 18446744073709551616 - 9223372036854775808

/-- Modelled from the spec: `TimePartitions::sum_of_pauses()` is not among the sources.  The
spec: the "sum ... of all reported sub-phase durations", accumulated phase by phase in the
64-bit type `jlong` in which the header stores it (`jlong _sum_of_pauses`). -/
def TimePartitions.sum_of_pauses (time_partitions : TimePartitions) : jlong :=
  time_partitions.foldl (fun acc p => jlong.wrap (acc + p.duration)) 0

/-- Modelled from the spec: `TimePartitions::longest_pause()` is not among the sources.  The
spec: the "max of all reported sub-phase durations"; with no sub-phase reported it is zero
("zero until computed"). -/
def TimePartitions.longest_pause (time_partitions : TimePartitions) : jlong :=
  match time_partitions with
  | [] => 0
  | p :: ps => ps.foldl (fun longest q => max longest q.duration) p.duration

/-- Modelled from the spec: the event records handed to the event sink by the `send_*`
member functions, whose bodies are not among the sources.  One constructor for each event
kind of the spec (section 6), named after the `send_*` function the header declares for
it. -/
inductive GCEvent where
  /-- The cycle-summary event of `send_garbage_collection_event`. -/
  | garbage_collection (info : SharedGCInfo)
  /-- A phase-timing event of `send_phase_events`. -/
  | phase (p : GCPhase)
  /-- The heap-summary event of `send_gc_heap_summary_event`. -/
  | gc_heap_summary (w : GCWhen) (heap_summary : GCHeapSummary)
  /-- The permanent-area summary event of `send_perm_gen_summary_event`. -/
  | perm_gen_summary (w : GCWhen) (perm_gen_summary : PermGenSummary)
  /-- The reference-statistics event of `send_reference_stats_event`. -/
  | reference_stats (type : ReferenceType) (count : size_t)
  /-- The young-collection event of `send_young_gc_event`. -/
  | young_gc (info : SharedGCInfo) (promotion_failed : Bool)
  /-- The promotion-failure detail event of `send_promotion_failed_event`. -/
  | promotion_failed (size : size_t) (count : uint)
  /-- The old-collection event of `send_old_gc_event`. -/
  | old_gc (info : SharedGCInfo)
  /-- The compaction event of `send_parallel_old_event`. -/
  | parallel_old (dense_prefix_addr : VoidPtr)
  /-- The region-specific event of `send_g1_young_gc_event`. -/
  | g1_young_gc (type : G1YCType)
deriving DecidableEq

/-- Modelled from the spec: the protocol violations of section 7, each detected by an
assertion (the assertions are in `gcTrace.cpp`, which is not among the sources).  The
spec's third violation, `report_gc_end` "before an id has been assigned", is the same
condition as `report_gc_end` without a matching start: the id is assigned by
`report_gc_start`. -/
inductive ProtocolViolation where
  /-- The member `report_gc_start` was called while a cycle is open. -/
  | start_while_in_cycle
  /-- The member `report_gc_end` was called without a matching start. -/
  | end_without_start
deriving DecidableEq

/-- The outcome of a call that checks the protocol: the assertion failure, or the updated
tracer together with the events emitted by the call. -/
abbrev Outcome (σ : Type) := Except ProtocolViolation (σ × List GCEvent)

/-- Modelled from the spec: an id supplied by the external allocator of cycle ids, which is
not among the sources.  The spec: the id is an "externally assigned unique identifier" with
a "sentinel unset value before assignment", and an id that "has been assigned" is
"non-sentinel": a supplied id is never `UNSET_GCID`. -/
structure AssignedGCId where
  id : GCId
  is_assigned : id ≠ SharedGCInfo.UNSET_GCID

/-! ## `GCTracer`: the start/end protocol (bodies modelled from the spec, section 4.1)

How the open cycle is recorded.  `SharedGCInfo` has no field besides the seven of the
header, and its constant `UNSET_TIMESTAMP` is private, so code of `GCTracer` cannot compare
a timestamp with it; the sentinel the header makes public is `UNSET_GCID`.  No member of the
header takes a `GCId` and `_shared_gc_info` is protected, so the id reaches the record from
inside the tracer: `report_gc_start` stores the id the allocator supplies for the new cycle,
and `report_gc_end`, having emitted the events of the cycle, puts the sentinel back. -/

/-- Modelled from the spec: `GCTracer::has_reported_gc_start()` is declared in the header, its
body is not among the sources.  The spec: "true iff `start_timestamp` is set and
`end_timestamp` is not yet set for the current cycle", that is, true exactly while a cycle
is open (it "defines the two-state machine" Idle / InCycle).  The open cycle is read off the
one sentinel `GCTracer` can name, the id of the cycle; the timestamps then are as the spec
words them (`GCTracer.has_reported_gc_start_iff_timestamps`). -/
def GCTracer.has_reported_gc_start (g : GCTracer) : Bool :=
  g._shared_gc_info.id != SharedGCInfo.UNSET_GCID

/-- Modelled from the spec: the body of the hook `GCTracer::report_gc_start_impl` is not among
the sources.  The spec: the shared cycle info is "overwritten at the next
`report_gc_start`" (its lifetime is one cycle, "created/reset at `report_gc_start`") and the
call "records `cause` and `start_timestamp`"; the collector identity is fixed at
construction.  `gc_id` is the id the external allocator supplies for the cycle; it is an
input of the model, not an argument of the C++ member.  No event is modelled for the
optional "cycle started" notification. -/
def GCTracer.report_gc_start_impl (g : GCTracer) (gc_id : AssignedGCId)
    (cause : GCCause.Cause) (timestamp : jlong) : GCTracer × List GCEvent :=
  ({ _shared_gc_info :=
      (((SharedGCInfo.new g._shared_gc_info.name).set_id gc_id.id).set_cause
        cause).set_start_timestamp timestamp },
   [])

/-- Modelled from the spec: the body of `GCTracer::report_gc_start` is not among the sources.
The spec: "Precondition: no cycle currently in progress"; it "fails ... if called while a
cycle is already open", otherwise it delegates to the hook. -/
def GCTracer.report_gc_start (g : GCTracer) (gc_id : AssignedGCId) (cause : GCCause.Cause)
    (timestamp : jlong) : Outcome GCTracer :=
  if g.has_reported_gc_start then .error ProtocolViolation.start_while_in_cycle
  else .ok (g.report_gc_start_impl gc_id cause timestamp)

/-- Modelled from the spec: the entry assertion of `GCTracer::report_gc_end`, not among the
sources.  The spec: "Precondition: `has_reported_gc_start()` is true and `id` has been
assigned"; both are the one test of the id. -/
def GCTracer.report_gc_end_check (g : GCTracer) : Option ProtocolViolation :=
  if g.has_reported_gc_start then none else some ProtocolViolation.end_without_start

/-- Modelled from the spec: the body of `GCTracer::send_phase_events` is not among the
sources; one phase-timing event for each named sub-phase. -/
def GCTracer.send_phase_events (time_partitions : TimePartitions) : List GCEvent :=
  time_partitions.map GCEvent.phase

/-- Modelled from the spec: the body of the hook `GCTracer::report_gc_end_impl` is not among
the sources.  The spec: it "records `end_timestamp`; derives `sum_of_pauses` and
`longest_pause` from `time_partitions`", then the phase-timing events and the cycle-summary
event are emitted. -/
def GCTracer.report_gc_end_impl (g : GCTracer) (timestamp : jlong)
    (time_partitions : TimePartitions) : GCTracer × List GCEvent :=
  let info :=
    ((g._shared_gc_info.set_sum_of_pauses time_partitions.sum_of_pauses).set_longest_pause
      time_partitions.longest_pause).set_end_timestamp timestamp
  ({ _shared_gc_info := info },
   GCTracer.send_phase_events time_partitions ++ [GCEvent.garbage_collection info])

/-- Modelled from the spec: the last step of `GCTracer::report_gc_end`, not among the
sources.  The spec: the cycle info is "consumed and emitted at `report_gc_end`, then
logically discarded": the id returns to the sentinel, so that no cycle is open; the
recorded envelope stays in place until the next `report_gc_start` overwrites it. -/
def GCTracer.discard_gc_id (g : GCTracer) : GCTracer :=
  { _shared_gc_info := g._shared_gc_info.set_id SharedGCInfo.UNSET_GCID }

/-- Modelled from the spec: the body of `GCTracer::report_gc_end` is not among the sources.
The entry assertion, then the end-of-cycle hook of the base class, then the id is
discarded. -/
def GCTracer.report_gc_end (g : GCTracer) (timestamp : jlong)
    (time_partitions : TimePartitions) : Outcome GCTracer :=
  match g.report_gc_end_check with
  | some violation => .error violation
  | none =>
    .ok ((g.report_gc_end_impl timestamp time_partitions).1.discard_gc_id,
         (g.report_gc_end_impl timestamp time_partitions).2)

/-- Modelled from the spec: the body of `GCTracer::report_gc_heap_summary` is not among the
sources.  The header declares it `const`; the spec: a "stateless pass-through" that emits
the heap-summary events tagged with `when`. -/
def GCTracer.report_gc_heap_summary (g : GCTracer) (w : GCWhen)
    (heap_summary : GCHeapSummary) (perm_gen_summary : PermGenSummary) :
    GCTracer × List GCEvent :=
  (g, [GCEvent.gc_heap_summary w heap_summary, GCEvent.perm_gen_summary w perm_gen_summary])

/-- Modelled from the spec: the body of `GCTracer::report_gc_reference_stats` is not among the
sources.  The header declares it `const`; the spec: a "stateless pass-through" that emits
"one reference-statistics event per reference-strength category present". -/
def GCTracer.report_gc_reference_stats (g : GCTracer) (rp : ReferenceProcessorStats) :
    GCTracer × List GCEvent :=
  (g, rp.map (fun tc => GCEvent.reference_stats tc.1 tc.2))

/-! ## The tracer specializations (bodies modelled from the spec, sections 4.2 and 4.3)

The header declares `report_gc_start` and `report_gc_end` once, in `GCTracer`, as
non-virtual members that call the virtual hooks `report_gc_start_impl` and
`report_gc_end_impl`.  No derived class declares an override of `report_gc_start_impl`, so
`report_gc_start` on a derived tracer is the base member acting on the base part.
`YoungGCTracer`, `OldGCTracer`, `ParallelOldTracer` and `G1NewTracer` each declare an override
of `report_gc_end_impl`; `report_gc_end` on them is the base entry assertion, their own
hook, and the base member's last step on the base part. -/

/-- The inherited member `report_gc_start` on a young tracer: the base member on the base
part; the young cycle info is not touched. -/
def YoungGCTracer.report_gc_start (y : YoungGCTracer) (gc_id : AssignedGCId)
    (cause : GCCause.Cause) (timestamp : jlong) : Outcome YoungGCTracer :=
  match y.toGCTracer.report_gc_start gc_id cause timestamp with
  | .error violation => .error violation
  | .ok (g, evs) => .ok ({ y with toGCTracer := g }, evs)

/-- Modelled from the spec: the body of `YoungGCTracer::report_gc_end_impl` is not among the
sources.  The spec: it "composes and emits a young-collection event carrying the shared
envelope plus `promotion_failed`, then resets the flag for the next cycle". -/
def YoungGCTracer.report_gc_end_impl (y : YoungGCTracer) (timestamp : jlong)
    (time_partitions : TimePartitions) : YoungGCTracer × List GCEvent :=
  let r := y.toGCTracer.report_gc_end_impl timestamp time_partitions
  ({ toGCTracer := r.1, _young_gc_info := YoungGCInfo.new },
   r.2 ++ [GCEvent.young_gc r.1._shared_gc_info y.young_gc_info.promotion_failed])

/-- The inherited member `report_gc_end` on a young tracer: the base entry assertion, the
young tracer's end-of-cycle hook, then the id is discarded. -/
def YoungGCTracer.report_gc_end (y : YoungGCTracer) (timestamp : jlong)
    (time_partitions : TimePartitions) : Outcome YoungGCTracer :=
  match y.toGCTracer.report_gc_end_check with
  | some violation => .error violation
  | none =>
    .ok ({ (y.report_gc_end_impl timestamp time_partitions).1 with
            toGCTracer :=
              (y.report_gc_end_impl timestamp time_partitions).1.toGCTracer.discard_gc_id },
         (y.report_gc_end_impl timestamp time_partitions).2)

/-- Modelled from the spec: the body of `YoungGCTracer::report_promotion_failed` is not among
the sources.  The spec: it "sets the `promotion_failed` flag true" and "each [call] still
emits its own promotion failed detail event carrying `size`/`count`". -/
def YoungGCTracer.report_promotion_failed (y : YoungGCTracer) (size : size_t) (count : uint) :
    YoungGCTracer × List GCEvent :=
  ({ y with _young_gc_info := y.young_gc_info.register_promotion_failed },
   [GCEvent.promotion_failed size count])

/-- The inherited member `report_gc_start` on an old tracer: the base member on the base
part. -/
def OldGCTracer.report_gc_start (o : OldGCTracer) (gc_id : AssignedGCId)
    (cause : GCCause.Cause) (timestamp : jlong) : Outcome OldGCTracer :=
  match o.toGCTracer.report_gc_start gc_id cause timestamp with
  | .error violation => .error violation
  | .ok (g, evs) => .ok ({ toGCTracer := g }, evs)

/-- Modelled from the spec: the body of `OldGCTracer::report_gc_end_impl` is not among the
sources.  The spec: it "composes and emits an old-collection event carrying only the shared
envelope". -/
def OldGCTracer.report_gc_end_impl (o : OldGCTracer) (timestamp : jlong)
    (time_partitions : TimePartitions) : OldGCTracer × List GCEvent :=
  let r := o.toGCTracer.report_gc_end_impl timestamp time_partitions
  ({ toGCTracer := r.1 }, r.2 ++ [GCEvent.old_gc r.1._shared_gc_info])

/-- The inherited member `report_gc_end` on an old tracer: the base entry assertion, the old
tracer's end-of-cycle hook, then the id is discarded. -/
def OldGCTracer.report_gc_end (o : OldGCTracer) (timestamp : jlong)
    (time_partitions : TimePartitions) : Outcome OldGCTracer :=
  match o.toGCTracer.report_gc_end_check with
  | some violation => .error violation
  | none =>
    .ok ({ toGCTracer :=
            (o.report_gc_end_impl timestamp time_partitions).1.toGCTracer.discard_gc_id },
         (o.report_gc_end_impl timestamp time_partitions).2)

/-- The inherited member `report_gc_start` on a parallel-old tracer: the base member on the
base part; the parallel-old cycle info is not touched. -/
def ParallelOldTracer.report_gc_start (t : ParallelOldTracer) (gc_id : AssignedGCId)
    (cause : GCCause.Cause) (timestamp : jlong) : Outcome ParallelOldTracer :=
  match t.toGCTracer.report_gc_start gc_id cause timestamp with
  | .error violation => .error violation
  | .ok (g, evs) => .ok ({ t with toOldGCTracer := { toGCTracer := g } }, evs)

/-- Modelled from the spec: the body of `ParallelOldTracer::report_gc_end_impl` is not among
the sources.  The spec: "old-collection event + compaction event carrying dense_prefix";
the cycle info record is "reset per cycle" (consumed and emitted at the end of the cycle,
then discarded), so that it reads "none" from the next cycle start on. -/
def ParallelOldTracer.report_gc_end_impl (t : ParallelOldTracer) (timestamp : jlong)
    (time_partitions : TimePartitions) : ParallelOldTracer × List GCEvent :=
  let r := t.toOldGCTracer.report_gc_end_impl timestamp time_partitions
  ({ toOldGCTracer := r.1, _parallel_old_gc_info := ParallelOldGCInfo.new },
   r.2 ++ [GCEvent.parallel_old t._parallel_old_gc_info.dense_prefix])

/-- The inherited member `report_gc_end` on a parallel-old tracer: the base entry assertion,
the parallel-old tracer's end-of-cycle hook, then the id is discarded. -/
def ParallelOldTracer.report_gc_end (t : ParallelOldTracer) (timestamp : jlong)
    (time_partitions : TimePartitions) : Outcome ParallelOldTracer :=
  match t.toGCTracer.report_gc_end_check with
  | some violation => .error violation
  | none =>
    .ok ({ (t.report_gc_end_impl timestamp time_partitions).1 with
            toOldGCTracer :=
              { toGCTracer :=
                  (t.report_gc_end_impl timestamp time_partitions).1.toGCTracer.discard_gc_id } },
         (t.report_gc_end_impl timestamp time_partitions).2)

/-- Modelled from the spec: the body of `ParallelOldTracer::report_dense_prefix` is not among
the sources.  The spec: the dense prefix is "settable any time during `InCycle`, last write
wins"; it is stored with the header's `ParallelOldGCInfo::report_dense_prefix`. -/
def ParallelOldTracer.report_dense_prefix (t : ParallelOldTracer) (addr : VoidPtr) :
    ParallelOldTracer × List GCEvent :=
  ({ t with _parallel_old_gc_info := t._parallel_old_gc_info.report_dense_prefix addr }, [])

/-- The inherited member `report_gc_start` on a region-based young tracer: the base member on
the base part; the young and the region-specific cycle info are not touched. -/
def G1NewTracer.report_gc_start (t : G1NewTracer) (gc_id : AssignedGCId)
    (cause : GCCause.Cause) (timestamp : jlong) : Outcome G1NewTracer :=
  match t.toGCTracer.report_gc_start gc_id cause timestamp with
  | .error violation => .error violation
  | .ok (g, evs) =>
    .ok ({ t with toYoungGCTracer := { t.toYoungGCTracer with toGCTracer := g } }, evs)

/-- Modelled from the spec: the body of `G1NewTracer::report_gc_end_impl` is not among the
sources.  The spec: "young-collection event + region-specific event carrying sub_type"; the
cycle info record is "reset per cycle". -/
def G1NewTracer.report_gc_end_impl (t : G1NewTracer) (timestamp : jlong)
    (time_partitions : TimePartitions) : G1NewTracer × List GCEvent :=
  let r := t.toYoungGCTracer.report_gc_end_impl timestamp time_partitions
  ({ toYoungGCTracer := r.1, _g1_young_gc_info := G1YoungGCInfo.new },
   r.2 ++ [GCEvent.g1_young_gc t._g1_young_gc_info.type])

/-- The inherited member `report_gc_end` on a region-based young tracer: the base entry
assertion, the tracer's end-of-cycle hook, then the id is discarded. -/
def G1NewTracer.report_gc_end (t : G1NewTracer) (timestamp : jlong)
    (time_partitions : TimePartitions) : Outcome G1NewTracer :=
  match t.toGCTracer.report_gc_end_check with
  | some violation => .error violation
  | none =>
    .ok ({ (t.report_gc_end_impl timestamp time_partitions).1 with
            toYoungGCTracer :=
              { (t.report_gc_end_impl timestamp time_partitions).1.toYoungGCTracer with
                toGCTracer :=
                  (t.report_gc_end_impl timestamp
                    time_partitions).1.toGCTracer.discard_gc_id } },
         (t.report_gc_end_impl timestamp time_partitions).2)

/-- Modelled from the spec: the body of `G1NewTracer::report_yc_type` is not among the
sources.  The spec: the sub-type is "settable any time during `InCycle`, last write wins";
it is stored with the header's `G1YoungGCInfo::set_type`. -/
def G1NewTracer.report_yc_type (t : G1NewTracer) (type : G1YCType) :
    G1NewTracer × List GCEvent :=
  ({ t with _g1_young_gc_info := t._g1_young_gc_info.set_type type }, [])

/-! ## Call sequences -/

/-- A call of the start/end protocol.  A `report_gc_start` call comes with the id the
external allocator supplies for the cycle it opens. -/
inductive CycleCall where
  | report_gc_start (gc_id : AssignedGCId) (cause : GCCause.Cause) (timestamp : jlong)
  | report_gc_end (timestamp : jlong) (time_partitions : TimePartitions)

/-- Whether the call is `report_gc_start`. -/
def CycleCall.is_start : CycleCall → Bool
  | .report_gc_start _ _ _ => true
  | .report_gc_end _ _ => false

/-- The timestamp a call passes. -/
def CycleCall.timestamp : CycleCall → jlong
  | .report_gc_start _ _ timestamp => timestamp
  | .report_gc_end timestamp _ => timestamp

/-- Whether a sequence of calls respects the Idle/InCycle protocol, read off the calls alone:
`report_gc_start` only when no cycle is open, `report_gc_end` only when one is; `in_cycle`
tells whether a cycle is open before the first call. -/
def CycleCall.respects_protocol : Bool → List CycleCall → Bool
  | _, [] => true
  | in_cycle, c :: cs => (c.is_start != in_cycle) && CycleCall.respects_protocol c.is_start cs

/-- Whether the sequence is non-empty and its last call is `report_gc_start`. -/
def CycleCall.last_is_start (cs : List CycleCall) : Bool :=
  match cs.getLast? with
  | some c => c.is_start
  | none => false

/-- Whether a cycle is open after a sequence that respects the protocol, read off the calls
alone: as the last call says, and as before the sequence when there is no call. -/
def CycleCall.in_cycle_after (in_cycle : Bool) (cs : List CycleCall) : Bool :=
  match cs.getLast? with
  | some c => c.is_start
  | none => in_cycle

/-- The outcome of a sequence of calls, each applied with `call`: the events emitted so far,
and the first protocol violation or else the final tracer. -/
def CycleCall.run {σ : Type} (call : σ → CycleCall → Outcome σ) :
    σ → List CycleCall → List GCEvent × Except ProtocolViolation σ
  | s, [] => ([], .ok s)
  | s, c :: cs =>
    match call s c with
    | .error violation => ([], .error violation)
    | .ok (s1, evs1) => (evs1 ++ (CycleCall.run call s1 cs).1, (CycleCall.run call s1 cs).2)

/-- What the start/end protocol asks of the calls of a tracer class, `in_cycle` telling
whether a cycle is open: `report_gc_start` is accepted exactly when none is open and opens
one, `report_gc_end` is accepted exactly when one is open and closes it. -/
structure CycleCall.Protocol {σ : Type} (call : σ → CycleCall → Outcome σ)
    (in_cycle : σ → Bool) : Prop where
  start_idle : ∀ (s : σ) (gc_id : AssignedGCId) (cause : GCCause.Cause) (timestamp : jlong),
    in_cycle s = false →
    ∃ (s1 : σ) (evs : List GCEvent),
      call s (CycleCall.report_gc_start gc_id cause timestamp) = .ok (s1, evs)
      ∧ in_cycle s1 = true
  start_in_cycle : ∀ (s : σ) (gc_id : AssignedGCId) (cause : GCCause.Cause)
    (timestamp : jlong), in_cycle s = true →
    call s (CycleCall.report_gc_start gc_id cause timestamp)
      = .error ProtocolViolation.start_while_in_cycle
  end_in_cycle : ∀ (s : σ) (timestamp : jlong) (time_partitions : TimePartitions),
    in_cycle s = true →
    ∃ (s1 : σ) (evs : List GCEvent),
      call s (CycleCall.report_gc_end timestamp time_partitions) = .ok (s1, evs)
      ∧ in_cycle s1 = false
  end_idle : ∀ (s : σ) (timestamp : jlong) (time_partitions : TimePartitions),
    in_cycle s = false →
    call s (CycleCall.report_gc_end timestamp time_partitions)
      = .error ProtocolViolation.end_without_start

/-- What `report_gc_end(timestamp, time_partitions)` is to leave in the shared cycle info:
the sum of all the durations, their maximum (one of the durations, and no duration exceeds
it), and the timestamp passed. -/
def SharedGCInfo.records_end_of_cycle (info : SharedGCInfo) (timestamp : jlong)
    (time_partitions : TimePartitions) : Prop :=
  info.sum_of_pauses = (time_partitions.map GCPhase.duration).sum
  ∧ info.longest_pause ∈ time_partitions.map GCPhase.duration
  ∧ (∀ d ∈ time_partitions.map GCPhase.duration, d ≤ info.longest_pause)
  ∧ info.end_timestamp = timestamp

/-- One call on a base tracer. -/
def GCTracer.call (g : GCTracer) : CycleCall → Outcome GCTracer
  | .report_gc_start gc_id cause timestamp => g.report_gc_start gc_id cause timestamp
  | .report_gc_end timestamp time_partitions => g.report_gc_end timestamp time_partitions

/-- One call on a young tracer. -/
def YoungGCTracer.call (y : YoungGCTracer) : CycleCall → Outcome YoungGCTracer
  | .report_gc_start gc_id cause timestamp => y.report_gc_start gc_id cause timestamp
  | .report_gc_end timestamp time_partitions => y.report_gc_end timestamp time_partitions

/-- One call on an old tracer. -/
def OldGCTracer.call (o : OldGCTracer) : CycleCall → Outcome OldGCTracer
  | .report_gc_start gc_id cause timestamp => o.report_gc_start gc_id cause timestamp
  | .report_gc_end timestamp time_partitions => o.report_gc_end timestamp time_partitions

/-- One call on a parallel-old tracer. -/
def ParallelOldTracer.call (t : ParallelOldTracer) : CycleCall → Outcome ParallelOldTracer
  | .report_gc_start gc_id cause timestamp => t.report_gc_start gc_id cause timestamp
  | .report_gc_end timestamp time_partitions => t.report_gc_end timestamp time_partitions

/-- One call on a region-based young tracer. -/
def G1NewTracer.call (t : G1NewTracer) : CycleCall → Outcome G1NewTracer
  | .report_gc_start gc_id cause timestamp => t.report_gc_start gc_id cause timestamp
  | .report_gc_end timestamp time_partitions => t.report_gc_end timestamp time_partitions

/-! ## Concrete scenarios -/

/-- The time partitions of the spec's scenario: `[("mark", 20), ("copy", 25)]`. -/
def scenario_time_partitions : TimePartitions := [⟨"mark", 20⟩, ⟨"copy", 25⟩]

/-- Two sub-phases whose durations are each a `jlong` and sum to 2^63. -/
def scenario_overflowing_partitions : TimePartitions :=
  [⟨"mark", 9223372036854775807⟩, ⟨"copy", 1⟩]

/-- The id 7, as the allocator may supply it. -/
def scenario_gc_id_7 : AssignedGCId := ⟨7, by decide⟩

/-- The id 8, as the allocator may supply it. -/
def scenario_gc_id_8 : AssignedGCId := ⟨8, by decide⟩

/-- A young tracer in a cycle started at 100 with id 7, on which a promotion failure of
size 4096 and count 3 was reported (`YoungGCTracer.scenario_tracers_reached`). -/
def scenario_young_tracer : YoungGCTracer :=
  (YoungGCTracer.report_promotion_failed
    { toGCTracer :=
        GCTracer.mk ⟨7, GCName.DefNew, GCCause.Cause._allocation_failure, 100, -1, 0, 0⟩
      _young_gc_info := YoungGCInfo.new } 4096 3).1

/-- A parallel-old tracer in a cycle started at 100 with id 8, on which the dense prefix
4096 was reported (`YoungGCTracer.scenario_tracers_reached`). -/
def scenario_parallel_old_tracer : ParallelOldTracer :=
  (ParallelOldTracer.report_dense_prefix
    { toOldGCTracer :=
        { toGCTracer :=
            GCTracer.mk ⟨8, GCName.ParallelOld, GCCause.Cause._allocation_failure, 100, -1, 0, 0⟩ }
      _parallel_old_gc_info := ParallelOldGCInfo.new } 4096).1

/-! ## Theorems about the header's inline code -/

/-- C4: a freshly constructed `SharedGCInfo(name)` holds exactly the unset values: id is
`UNSET_GCID`, which is the unsigned 32-bit value of minus one; cause is `_last_gc_cause`;
both timestamps are the negative value -1; both pause durations are 0; the name is the one
passed in. -/
theorem SharedGCInfo.new_holds_unset_values (name : GCName) :
    (SharedGCInfo.new name).id = SharedGCInfo.UNSET_GCID
    ∧ SharedGCInfo.UNSET_GCID = 2 ^ 32 - 1
    ∧ (SharedGCInfo.new name).cause = GCCause.Cause._last_gc_cause
    ∧ (SharedGCInfo.new name).start_timestamp = -1
    ∧ (SharedGCInfo.new name).end_timestamp = -1
    ∧ (SharedGCInfo.new name).start_timestamp < 0
    ∧ (SharedGCInfo.new name).sum_of_pauses = 0
    ∧ (SharedGCInfo.new name).longest_pause = 0
    ∧ (SharedGCInfo.new name).name = name := by
  refine ⟨rfl, by decide, rfl, rfl, rfl, ?_, rfl, rfl, rfl⟩
  show (-1 : Int) < 0
  decide

/-- C5: the promotion-failed flag of a young cycle-info record is false after construction,
is true after one or more registrations from any state, and registering is idempotent (so no
number of further registrations turns the flag back to false). -/
theorem YoungGCInfo.promotion_failed_register :
    YoungGCInfo.new.promotion_failed = false
    ∧ (∀ (s : YoungGCInfo) (n : Nat),
        (YoungGCInfo.register_promotion_failed^[n + 1] s).promotion_failed = true)
    ∧ (∀ s : YoungGCInfo,
        s.register_promotion_failed.register_promotion_failed = s.register_promotion_failed) := by
  refine ⟨rfl, ?_, ?_⟩
  · intro s n
    rw [Function.iterate_succ_apply']
    rfl
  · intro s
    rfl

/-- C7: the dense prefix of a parallel-old cycle-info record is NULL after construction, and
reporting it is last-write-wins: after reporting `a` and then `b`, from any state, the dense
prefix read back is `b`. -/
theorem ParallelOldGCInfo.dense_prefix_last_write_wins :
    ParallelOldGCInfo.dense_prefix ParallelOldGCInfo.new = NULL
    ∧ (∀ (s : ParallelOldGCInfo) (a b : VoidPtr),
        ParallelOldGCInfo.dense_prefix
          (ParallelOldGCInfo.report_dense_prefix (ParallelOldGCInfo.report_dense_prefix s a) b)
          = b) :=
  ⟨rfl, fun _ _ _ => rfl⟩

/-- C8: the sub-type of a region-based young cycle-info record is the end sentinel after
construction, and setting it is last-write-wins: after setting `s` and then `t`, from any
state, the sub-type read back is `t`. -/
theorem G1YoungGCInfo.type_last_write_wins :
    G1YoungGCInfo.new.type = G1YCType.G1YCTypeEndSentinel
    ∧ (∀ (i : G1YoungGCInfo) (s t : G1YCType), ((i.set_type s).set_type t).type = t) :=
  ⟨rfl, fun _ _ _ => rfl⟩

/-- C9: each concrete tracer fixes the collector name of its shared cycle info at
construction, and none of the setters `set_id`, `set_cause`, `set_start_timestamp`,
`set_end_timestamp`, `set_sum_of_pauses`, `set_longest_pause` changes the name. -/
theorem SharedGCInfo.name_fixed_at_construction :
    (ParallelOldTracer.new._shared_gc_info.name = GCName.ParallelOld
      ∧ SerialOldTracer.new._shared_gc_info.name = GCName.SerialOld
      ∧ ParallelScavengeTracer.new._shared_gc_info.name = GCName.ParallelScavenge
      ∧ DefNewTracer.new._shared_gc_info.name = GCName.DefNew
      ∧ ParNewTracer.new._shared_gc_info.name = GCName.ParNew
      ∧ G1NewTracer.new._shared_gc_info.name = GCName.G1New
      ∧ CMSTracer.new._shared_gc_info.name = GCName.ConcurrentMarkSweep
      ∧ G1OldTracer.new._shared_gc_info.name = GCName.G1Old)
    ∧ (∀ (s : SharedGCInfo) (id : GCId) (cause : GCCause.Cause) (v : jlong),
        (s.set_id id).name = s.name
        ∧ (s.set_cause cause).name = s.name
        ∧ (s.set_start_timestamp v).name = s.name
        ∧ (s.set_end_timestamp v).name = s.name
        ∧ (s.set_sum_of_pauses v).name = s.name
        ∧ (s.set_longest_pause v).name = s.name) :=
  ⟨⟨rfl, rfl, rfl, rfl, rfl, rfl, rfl, rfl⟩, fun _ _ _ _ => ⟨rfl, rfl, rfl, rfl, rfl, rfl⟩⟩

/-! ## Theorems about the start/end protocol -/

/-- Wrapping an intermediate result does not change the wrapped sum. -/
theorem jlong.wrap_wrap_add (a d : Int) : jlong.wrap (jlong.wrap a + d) = jlong.wrap (a + d) := by
  unfold jlong.wrap
  omega

/-- A value in the range of `jlong` is held as it is. -/
theorem jlong.wrap_eq_self (x : Int) (hlo : -9223372036854775808 ≤ x)
    (hhi : x < 9223372036854775808) : jlong.wrap x = x := by
  unfold jlong.wrap
  omega

/-- The phase-by-phase accumulation started at a held value holds the wrapped sum. -/
theorem TimePartitions.foldl_wrap_add_eq (tp : List GCPhase) (a : Int) :
    tp.foldl (fun acc p => jlong.wrap (acc + p.duration)) (jlong.wrap a)
      = jlong.wrap (a + (tp.map GCPhase.duration).sum) := by
  induction tp generalizing a with
  | nil => simp
  | cons p ps ih =>
    simp only [List.foldl_cons, List.map_cons, List.sum_cons]
    rw [jlong.wrap_wrap_add, ih, add_assoc]

/-- The computed sum of pauses is the sum of all durations, wrapped to 64 bits. -/
theorem TimePartitions.sum_of_pauses_eq_wrap (tp : TimePartitions) :
    TimePartitions.sum_of_pauses tp = jlong.wrap (tp.map GCPhase.duration).sum := by
  have h := TimePartitions.foldl_wrap_add_eq tp 0
  have h0 : jlong.wrap 0 = 0 := by decide
  rw [h0, zero_add] at h
  exact h

/-- The computed sum of pauses is the sum of all durations when that sum is a `jlong`. -/
theorem TimePartitions.sum_of_pauses_eq (tp : TimePartitions)
    (hlo : -9223372036854775808 ≤ (tp.map GCPhase.duration).sum)
    (hhi : (tp.map GCPhase.duration).sum < 9223372036854775808) :
    TimePartitions.sum_of_pauses tp = (tp.map GCPhase.duration).sum := by
  rw [TimePartitions.sum_of_pauses_eq_wrap, jlong.wrap_eq_self _ hlo hhi]

/-- The running maximum started at `a` is at least `a` and at least every duration seen. -/
theorem TimePartitions.foldl_max_ge (ps : List GCPhase) (a : jlong) :
    a ≤ ps.foldl (fun longest q => max longest q.duration) a
    ∧ ∀ q ∈ ps, q.duration ≤ ps.foldl (fun longest q => max longest q.duration) a := by
  induction ps generalizing a with
  | nil => simp
  | cons p ps ih =>
    simp only [List.foldl_cons, List.mem_cons, forall_eq_or_imp]
    obtain ⟨h1, h2⟩ := ih (max a p.duration)
    exact ⟨le_trans (le_max_left _ _) h1, le_trans (le_max_right _ _) h1, h2⟩

/-- The running maximum started at `a` is `a` or one of the durations seen. -/
theorem TimePartitions.foldl_max_mem (ps : List GCPhase) (a : jlong) :
    ps.foldl (fun longest q => max longest q.duration) a = a
    ∨ ps.foldl (fun longest q => max longest q.duration) a ∈ ps.map GCPhase.duration := by
  induction ps generalizing a with
  | nil => simp
  | cons p ps ih =>
    simp only [List.foldl_cons, List.map_cons, List.mem_cons]
    rcases ih (max a p.duration) with h | h
    · rcases max_choice a p.duration with hm | hm
      · left; rw [h, hm]
      · right; left; rw [h, hm]
    · right; right; exact h

/-- The computed longest pause of a non-empty sequence is the maximum of its durations: it
is one of them and no duration exceeds it. -/
theorem TimePartitions.longest_pause_is_max (tp : TimePartitions) (hne : tp ≠ []) :
    TimePartitions.longest_pause tp ∈ tp.map GCPhase.duration
    ∧ ∀ d ∈ tp.map GCPhase.duration, d ≤ TimePartitions.longest_pause tp := by
  cases tp with
  | nil => exact absurd rfl hne
  | cons p ps =>
    simp only [TimePartitions.longest_pause, List.map_cons, List.mem_cons, forall_eq_or_imp,
      List.mem_map, forall_exists_index, and_imp, forall_apply_eq_imp_iff₂]
    obtain ⟨h1, h2⟩ := TimePartitions.foldl_max_ge ps p.duration
    refine ⟨?_, h1, h2⟩
    rcases TimePartitions.foldl_max_mem ps p.duration with h | h
    · left; exact h
    · right; simpa using h

/-- After the start hook a cycle is open: the supplied id is not the sentinel. -/
theorem GCTracer.report_gc_start_impl_has_reported_gc_start (g : GCTracer)
    (gc_id : AssignedGCId) (cause : GCCause.Cause) (timestamp : jlong) :
    (g.report_gc_start_impl gc_id cause timestamp).1.has_reported_gc_start = true := by
  simp [GCTracer.report_gc_start_impl, GCTracer.has_reported_gc_start, SharedGCInfo.id,
    SharedGCInfo.set_start_timestamp, SharedGCInfo.set_cause, SharedGCInfo.set_id,
    gc_id.is_assigned]

/-- Once the id is discarded no cycle is open. -/
theorem GCTracer.discard_gc_id_has_reported_gc_start (g : GCTracer) :
    g.discard_gc_id.has_reported_gc_start = false := by
  simp [GCTracer.discard_gc_id, GCTracer.has_reported_gc_start, SharedGCInfo.id,
    SharedGCInfo.set_id]

/-- The calls of a base tracer follow the start/end protocol. -/
theorem GCTracer.call_protocol_base :
    CycleCall.Protocol GCTracer.call GCTracer.has_reported_gc_start where
  start_idle := by
    intro g gc_id cause timestamp h
    refine ⟨(g.report_gc_start_impl gc_id cause timestamp).1,
      (g.report_gc_start_impl gc_id cause timestamp).2, ?_,
      GCTracer.report_gc_start_impl_has_reported_gc_start g gc_id cause timestamp⟩
    simp [GCTracer.call, GCTracer.report_gc_start, h]
  start_in_cycle := by
    intro g gc_id cause timestamp h
    simp [GCTracer.call, GCTracer.report_gc_start, h]
  end_in_cycle := by
    intro g timestamp time_partitions h
    refine ⟨(g.report_gc_end_impl timestamp time_partitions).1.discard_gc_id,
      (g.report_gc_end_impl timestamp time_partitions).2, ?_,
      GCTracer.discard_gc_id_has_reported_gc_start _⟩
    simp [GCTracer.call, GCTracer.report_gc_end, GCTracer.report_gc_end_check, h]
  end_idle := by
    intro g timestamp time_partitions h
    simp [GCTracer.call, GCTracer.report_gc_end, GCTracer.report_gc_end_check, h]

/-- Whether a cycle is open after `c :: cs` is decided by `cs`, and by `c` when `cs` is
empty. -/
theorem CycleCall.in_cycle_after_cons (b : Bool) (c : CycleCall) (cs : List CycleCall) :
    CycleCall.in_cycle_after b (c :: cs) = CycleCall.in_cycle_after c.is_start cs := by
  cases cs with
  | nil => rfl
  | cons d ds =>
    cases h : (d :: ds).getLast? with
    | none => simp at h
    | some e => simp [CycleCall.in_cycle_after, List.getLast?_cons_cons, h]

/-- A sequence that respects the protocol is accepted by every tracer class whose calls follow
the protocol, and leaves a cycle open exactly as the calls say. -/
theorem CycleCall.run_respects_protocol {σ : Type} (call : σ → CycleCall → Outcome σ)
    (in_cycle : σ → Bool) (hp : CycleCall.Protocol call in_cycle) (cs : List CycleCall) :
    ∀ s : σ, CycleCall.respects_protocol (in_cycle s) cs = true →
      ∃ s1 : σ, (CycleCall.run call s cs).2 = .ok s1
        ∧ in_cycle s1 = CycleCall.in_cycle_after (in_cycle s) cs := by
  induction cs with
  | nil =>
    intro s _
    exact ⟨s, rfl, rfl⟩
  | cons c cs ih =>
    intro s hprot
    simp only [CycleCall.respects_protocol, Bool.and_eq_true, bne_iff_ne, ne_eq] at hprot
    obtain ⟨hc, hrest⟩ := hprot
    rw [CycleCall.in_cycle_after_cons]
    cases c with
    | report_gc_start gc_id cause timestamp =>
      have hidle : in_cycle s = false := by
        cases h : in_cycle s
        · rfl
        · exact absurd (by simp [CycleCall.is_start, h]) hc
      obtain ⟨s1, evs1, hcall, hs1⟩ := hp.start_idle s gc_id cause timestamp hidle
      have hrest1 : CycleCall.respects_protocol (in_cycle s1) cs = true := by
        rw [hs1]; exact hrest
      obtain ⟨s2, hrun, hs2⟩ := ih s1 hrest1
      refine ⟨s2, ?_, ?_⟩
      · simp only [CycleCall.run, hcall]
        exact hrun
      · rw [hs2, hs1]
        rfl
    | report_gc_end timestamp time_partitions =>
      have hbusy : in_cycle s = true := by
        cases h : in_cycle s
        · exact absurd (by simp [CycleCall.is_start, h]) hc
        · rfl
      obtain ⟨s1, evs1, hcall, hs1⟩ := hp.end_in_cycle s timestamp time_partitions hbusy
      have hrest1 : CycleCall.respects_protocol (in_cycle s1) cs = true := by
        rw [hs1]; exact hrest
      obtain ⟨s2, hrun, hs2⟩ := ih s1 hrest1
      refine ⟨s2, ?_, ?_⟩
      · simp only [CycleCall.run, hcall]
        exact hrun
      · rw [hs2, hs1]
        rfl

/-- No cycle is open on a freshly constructed tracer. -/
theorem GCTracer.new_has_reported_gc_start (name : GCName) :
    (GCTracer.new name).has_reported_gc_start = false := by
  simp [GCTracer.has_reported_gc_start, GCTracer.new, SharedGCInfo.new, SharedGCInfo.id]

/-- C1: for every base tracer, freshly constructed, and every finite sequence of
`report_gc_start` / `report_gc_end` calls that respects the Idle/InCycle protocol (start
only when no cycle is open, end only when one is), the sequence is accepted and
`has_reported_gc_start()` is true after it if and only if the sequence is non-empty and its
last call is `report_gc_start`; so it is false on a fresh tracer and false again after every
`report_gc_end`. -/
theorem GCTracer.has_reported_gc_start_iff_last_is_start (name : GCName)
    (cs : List CycleCall) (hprot : CycleCall.respects_protocol false cs = true) :
    ∃ g : GCTracer, (CycleCall.run GCTracer.call (GCTracer.new name) cs).2 = .ok g
      ∧ (g.has_reported_gc_start = true ↔ CycleCall.last_is_start cs = true) := by
  have hfresh := GCTracer.new_has_reported_gc_start name
  have hprot1 :
      CycleCall.respects_protocol (GCTracer.new name).has_reported_gc_start cs = true := by
    rw [hfresh]; exact hprot
  obtain ⟨g, hrun, hg⟩ := CycleCall.run_respects_protocol GCTracer.call
    GCTracer.has_reported_gc_start GCTracer.call_protocol_base cs (GCTracer.new name) hprot1
  refine ⟨g, hrun, ?_⟩
  rw [hg, hfresh]
  exact Iff.rfl

/-- C1 (witness): two cycles on a fresh tracer, the second still open. -/
theorem GCTracer.has_reported_gc_start_iff_last_is_start_witness :
    CycleCall.respects_protocol false
        [CycleCall.report_gc_start scenario_gc_id_7 GCCause.Cause._allocation_failure 100,
         CycleCall.report_gc_end 150 scenario_time_partitions,
         CycleCall.report_gc_start scenario_gc_id_8 GCCause.Cause._java_lang_system_gc 200]
      = true
    ∧ ∃ g : GCTracer,
      (CycleCall.run GCTracer.call (GCTracer.new GCName.ParNew)
        [CycleCall.report_gc_start scenario_gc_id_7 GCCause.Cause._allocation_failure 100,
         CycleCall.report_gc_end 150 scenario_time_partitions,
         CycleCall.report_gc_start scenario_gc_id_8 GCCause.Cause._java_lang_system_gc 200]).2
        = .ok g
      ∧ (g.has_reported_gc_start = true ↔
          CycleCall.last_is_start
            [CycleCall.report_gc_start scenario_gc_id_7 GCCause.Cause._allocation_failure 100,
             CycleCall.report_gc_end 150 scenario_time_partitions,
             CycleCall.report_gc_start scenario_gc_id_8 GCCause.Cause._java_lang_system_gc 200]
            = true) :=
  ⟨rfl, GCTracer.has_reported_gc_start_iff_last_is_start GCName.ParNew _ rfl⟩

/-- An accepted call whose timestamp is not the unset sentinel leaves the timestamps as the
spec words the open cycle: a cycle is open exactly when the start timestamp is set and the
end timestamp is not. -/
theorem GCTracer.call_timestamps (g g1 : GCTracer) (c : CycleCall) (evs : List GCEvent)
    (hts : c.timestamp ≠ SharedGCInfo.UNSET_TIMESTAMP) (hcall : g.call c = .ok (g1, evs)) :
    (g1.has_reported_gc_start = true ↔
      g1._shared_gc_info.start_timestamp ≠ SharedGCInfo.UNSET_TIMESTAMP
      ∧ g1._shared_gc_info.end_timestamp = SharedGCInfo.UNSET_TIMESTAMP) := by
  cases c with
  | report_gc_start gc_id cause timestamp =>
    simp only [GCTracer.call, GCTracer.report_gc_start] at hcall
    split at hcall
    · cases hcall
    · simp only [Except.ok.injEq, Prod.mk.injEq] at hcall
      obtain ⟨rfl, -⟩ := hcall
      simp only [CycleCall.timestamp] at hts
      simp [GCTracer.report_gc_start_impl, GCTracer.has_reported_gc_start, SharedGCInfo.id,
        SharedGCInfo.start_timestamp, SharedGCInfo.end_timestamp,
        SharedGCInfo.set_start_timestamp, SharedGCInfo.set_cause, SharedGCInfo.set_id,
        SharedGCInfo.new, hts, gc_id.is_assigned]
  | report_gc_end timestamp time_partitions =>
    simp only [GCTracer.call, GCTracer.report_gc_end] at hcall
    split at hcall
    · cases hcall
    · simp only [Except.ok.injEq, Prod.mk.injEq] at hcall
      obtain ⟨rfl, -⟩ := hcall
      simp only [CycleCall.timestamp] at hts
      simp [GCTracer.report_gc_end_impl, GCTracer.discard_gc_id, GCTracer.has_reported_gc_start,
        SharedGCInfo.id, SharedGCInfo.start_timestamp, SharedGCInfo.end_timestamp,
        SharedGCInfo.set_end_timestamp, SharedGCInfo.set_id, SharedGCInfo.set_sum_of_pauses,
        SharedGCInfo.set_longest_pause, hts]

/-- An accepted sequence of calls that passes no unset sentinel as a timestamp keeps the
timestamps as the spec words the open cycle. -/
theorem GCTracer.run_timestamps (cs : List CycleCall) :
    ∀ g g1 : GCTracer,
      (g.has_reported_gc_start = true ↔
        g._shared_gc_info.start_timestamp ≠ SharedGCInfo.UNSET_TIMESTAMP
        ∧ g._shared_gc_info.end_timestamp = SharedGCInfo.UNSET_TIMESTAMP) →
      (∀ c ∈ cs, c.timestamp ≠ SharedGCInfo.UNSET_TIMESTAMP) →
      (CycleCall.run GCTracer.call g cs).2 = .ok g1 →
      (g1.has_reported_gc_start = true ↔
        g1._shared_gc_info.start_timestamp ≠ SharedGCInfo.UNSET_TIMESTAMP
        ∧ g1._shared_gc_info.end_timestamp = SharedGCInfo.UNSET_TIMESTAMP) := by
  induction cs with
  | nil =>
    intro g g1 hg _ hrun
    simp only [CycleCall.run, Except.ok.injEq] at hrun
    subst hrun
    exact hg
  | cons c cs ih =>
    intro g g1 _ hts hrun
    cases hc : g.call c with
    | error v => simp [CycleCall.run, hc] at hrun
    | ok r =>
      obtain ⟨g2, evs2⟩ := r
      simp only [CycleCall.run, hc] at hrun
      exact ih g2 g1
        (GCTracer.call_timestamps g g2 c evs2 (hts c (List.mem_cons_self _ _)) hc)
        (fun d hd => hts d (List.mem_cons_of_mem _ hd)) hrun

/-- The spec's wording of `has_reported_gc_start()` holds of the model: after every accepted
sequence of calls on a freshly constructed tracer that passes no unset sentinel as a
timestamp, `has_reported_gc_start()` is true exactly when the start timestamp is set and
the end timestamp is not. -/
theorem GCTracer.has_reported_gc_start_iff_timestamps (name : GCName) (cs : List CycleCall)
    (g : GCTracer) (hts : ∀ c ∈ cs, c.timestamp ≠ SharedGCInfo.UNSET_TIMESTAMP)
    (hrun : (CycleCall.run GCTracer.call (GCTracer.new name) cs).2 = .ok g) :
    (g.has_reported_gc_start = true ↔
      g._shared_gc_info.start_timestamp ≠ SharedGCInfo.UNSET_TIMESTAMP
      ∧ g._shared_gc_info.end_timestamp = SharedGCInfo.UNSET_TIMESTAMP) := by
  refine GCTracer.run_timestamps cs (GCTracer.new name) g ?_ hts hrun
  rw [GCTracer.new_has_reported_gc_start]
  simp [GCTracer.new, SharedGCInfo.new, SharedGCInfo.start_timestamp]

/-- The young tracer of the scenarios is reached from a freshly constructed one by
`report_gc_start` at 100 and a promotion-failure report; the parallel-old tracer by
`report_gc_start` at 100 and a dense-prefix report. -/
theorem YoungGCTracer.scenario_tracers_reached :
    (∃ (y0 : YoungGCTracer) (evs : List GCEvent),
      (YoungGCTracer.new GCName.DefNew).report_gc_start scenario_gc_id_7
          GCCause.Cause._allocation_failure 100 = .ok (y0, evs)
      ∧ (y0.report_promotion_failed 4096 3).1 = scenario_young_tracer)
    ∧ (∃ (t0 : ParallelOldTracer) (evs : List GCEvent),
      ParallelOldTracer.new.report_gc_start scenario_gc_id_8
          GCCause.Cause._allocation_failure 100 = .ok (t0, evs)
      ∧ (ParallelOldTracer.report_dense_prefix t0 4096).1 = scenario_parallel_old_tracer) :=
  ⟨⟨_, _, rfl, rfl⟩, ⟨_, _, rfl, rfl⟩⟩

/-- What the base end-of-cycle hook records is still in place once the id is discarded: the
sum of the durations (when it is a `jlong`), their maximum, and the timestamp. -/
theorem GCTracer.report_gc_end_impl_records (g : GCTracer) (timestamp : jlong)
    (time_partitions : TimePartitions) (hne : time_partitions ≠ [])
    (hlo : -9223372036854775808 ≤ (time_partitions.map GCPhase.duration).sum)
    (hhi : (time_partitions.map GCPhase.duration).sum < 9223372036854775808) :
    (g.report_gc_end_impl timestamp
      time_partitions).1.discard_gc_id._shared_gc_info.records_end_of_cycle
        timestamp time_partitions := by
  obtain ⟨hmem, hmax⟩ := TimePartitions.longest_pause_is_max time_partitions hne
  exact ⟨TimePartitions.sum_of_pauses_eq time_partitions hlo hhi, hmem, hmax, rfl⟩

/-- C2 (counterexample): a freshly constructed young tracer, a cycle started at 100 and
ended at 150 with two sub-phases of durations 2^63 - 1 and 1.  The durations sum to 2^63;
`sum_of_pauses()` afterwards is not that sum, and cannot be, since no `jlong` is 2^63. -/
theorem YoungGCTracer.sum_of_pauses_overflows :
    (∃ y1 : YoungGCTracer,
      (CycleCall.run YoungGCTracer.call (YoungGCTracer.new GCName.DefNew)
        [CycleCall.report_gc_start scenario_gc_id_7 GCCause.Cause._allocation_failure 100,
         CycleCall.report_gc_end 150 scenario_overflowing_partitions]).2 = .ok y1
      ∧ y1._shared_gc_info.sum_of_pauses
          ≠ (scenario_overflowing_partitions.map GCPhase.duration).sum)
    ∧ (scenario_overflowing_partitions.map GCPhase.duration).sum = 9223372036854775808
    ∧ (∀ v : Int, -9223372036854775808 ≤ v ∧ v < 9223372036854775808 →
        v ≠ (scenario_overflowing_partitions.map GCPhase.duration).sum) := by
  refine ⟨⟨_, rfl, by decide⟩, by decide, ?_⟩
  intro v hv
  have hsum : (scenario_overflowing_partitions.map GCPhase.duration).sum
      = 9223372036854775808 := by decide
  rw [hsum]
  omega

/-- C2 (amended): for every tracer in which a cycle is open, of every tracer class, and every
non-empty time-partition sequence whose durations sum to a value of the type `jlong`
(between -2^63 and 2^63 - 1), `report_gc_end(timestamp, time_partitions)` is accepted and
afterwards `sum_of_pauses()` is the sum of all the durations, `longest_pause()` is their
maximum, and `end_timestamp()` is the timestamp passed. -/
theorem GCTracer.report_gc_end_records_pauses (timestamp : jlong)
    (time_partitions : TimePartitions) (hne : time_partitions ≠ [])
    (hlo : -9223372036854775808 ≤ (time_partitions.map GCPhase.duration).sum)
    (hhi : (time_partitions.map GCPhase.duration).sum < 9223372036854775808) :
    (∀ g : GCTracer, g.has_reported_gc_start = true →
      ∃ (g1 : GCTracer) (evs : List GCEvent),
        g.report_gc_end timestamp time_partitions = .ok (g1, evs)
        ∧ g1._shared_gc_info.records_end_of_cycle timestamp time_partitions)
    ∧ (∀ y : YoungGCTracer, y.toGCTracer.has_reported_gc_start = true →
      ∃ (y1 : YoungGCTracer) (evs : List GCEvent),
        y.report_gc_end timestamp time_partitions = .ok (y1, evs)
        ∧ y1._shared_gc_info.records_end_of_cycle timestamp time_partitions)
    ∧ (∀ o : OldGCTracer, o.toGCTracer.has_reported_gc_start = true →
      ∃ (o1 : OldGCTracer) (evs : List GCEvent),
        o.report_gc_end timestamp time_partitions = .ok (o1, evs)
        ∧ o1._shared_gc_info.records_end_of_cycle timestamp time_partitions)
    ∧ (∀ t : ParallelOldTracer, t.toGCTracer.has_reported_gc_start = true →
      ∃ (t1 : ParallelOldTracer) (evs : List GCEvent),
        t.report_gc_end timestamp time_partitions = .ok (t1, evs)
        ∧ t1._shared_gc_info.records_end_of_cycle timestamp time_partitions)
    ∧ (∀ t : G1NewTracer, t.toGCTracer.has_reported_gc_start = true →
      ∃ (t1 : G1NewTracer) (evs : List GCEvent),
        t.report_gc_end timestamp time_partitions = .ok (t1, evs)
        ∧ t1._shared_gc_info.records_end_of_cycle timestamp time_partitions) := by
  refine ⟨?_, ?_, ?_, ?_, ?_⟩
  · intro g h
    refine ⟨(g.report_gc_end_impl timestamp time_partitions).1.discard_gc_id,
      (g.report_gc_end_impl timestamp time_partitions).2, ?_,
      GCTracer.report_gc_end_impl_records g timestamp time_partitions hne hlo hhi⟩
    simp [GCTracer.report_gc_end, GCTracer.report_gc_end_check, h]
  · intro y h
    refine ⟨{ (y.report_gc_end_impl timestamp time_partitions).1 with
        toGCTracer :=
          (y.report_gc_end_impl timestamp time_partitions).1.toGCTracer.discard_gc_id },
      (y.report_gc_end_impl timestamp time_partitions).2, ?_,
      GCTracer.report_gc_end_impl_records y.toGCTracer timestamp time_partitions hne hlo hhi⟩
    simp [YoungGCTracer.report_gc_end, GCTracer.report_gc_end_check, h]
  · intro o h
    refine ⟨{ toGCTracer :=
        (o.report_gc_end_impl timestamp time_partitions).1.toGCTracer.discard_gc_id },
      (o.report_gc_end_impl timestamp time_partitions).2, ?_,
      GCTracer.report_gc_end_impl_records o.toGCTracer timestamp time_partitions hne hlo hhi⟩
    simp [OldGCTracer.report_gc_end, GCTracer.report_gc_end_check, h]
  · intro t h
    refine ⟨{ (t.report_gc_end_impl timestamp time_partitions).1 with
        toOldGCTracer :=
          { toGCTracer :=
              (t.report_gc_end_impl timestamp time_partitions).1.toGCTracer.discard_gc_id } },
      (t.report_gc_end_impl timestamp time_partitions).2, ?_,
      GCTracer.report_gc_end_impl_records t.toGCTracer timestamp time_partitions hne hlo hhi⟩
    simp [ParallelOldTracer.report_gc_end, GCTracer.report_gc_end_check, h]
  · intro t h
    refine ⟨{ (t.report_gc_end_impl timestamp time_partitions).1 with
        toYoungGCTracer :=
          { (t.report_gc_end_impl timestamp time_partitions).1.toYoungGCTracer with
            toGCTracer :=
              (t.report_gc_end_impl timestamp time_partitions).1.toGCTracer.discard_gc_id } },
      (t.report_gc_end_impl timestamp time_partitions).2, ?_,
      GCTracer.report_gc_end_impl_records t.toGCTracer timestamp time_partitions hne hlo hhi⟩
    simp [G1NewTracer.report_gc_end, GCTracer.report_gc_end_check, h]

/-- C2 (witness): the scenario of the spec on a young tracer: started at 100, a promotion
failure reported, ended at 150 with partitions 20 and 25, which give sum 45 and longest
25. -/
theorem GCTracer.report_gc_end_records_pauses_witness :
    scenario_time_partitions ≠ []
    ∧ (scenario_time_partitions.map GCPhase.duration).sum = 45
    ∧ scenario_young_tracer.toGCTracer.has_reported_gc_start = true
    ∧ (∃ (y1 : YoungGCTracer) (evs : List GCEvent),
        scenario_young_tracer.report_gc_end 150 scenario_time_partitions = .ok (y1, evs)
        ∧ y1._shared_gc_info.sum_of_pauses = 45
        ∧ y1._shared_gc_info.longest_pause = 25
        ∧ y1._shared_gc_info.end_timestamp = 150)
    ∧ (∃ (y1 : YoungGCTracer) (evs : List GCEvent),
        scenario_young_tracer.report_gc_end 150 scenario_time_partitions = .ok (y1, evs)
        ∧ y1._shared_gc_info.records_end_of_cycle 150 scenario_time_partitions) :=
  ⟨by decide, by decide, by decide, ⟨_, _, rfl, by decide, by decide, by decide⟩,
    (GCTracer.report_gc_end_records_pauses 150 scenario_time_partitions (by decide)
      (by decide) (by decide)).2.1 scenario_young_tracer (by decide)⟩

/-- C10: the operations other than `report_gc_start` and `report_gc_end` leave the shared
cycle info, hence every field of it (id, name, cause, start and end timestamp, sum of
pauses, longest pause) and the answer of `has_reported_gc_start()`, unchanged, for every
tracer state: `report_gc_heap_summary` and `report_gc_reference_stats` return the tracer as
it was; the record updates `register_promotion_failed`, `report_dense_prefix` and `set_type`,
applied to the tracer's own fact record, leave the base part of the tracer as it was; and so
do the tracer's entry points that report a promotion failure, a dense prefix or a region
sub-type. -/
theorem GCTracer.reporting_leaves_shared_gc_info :
    (∀ (g : GCTracer) (w : GCWhen) (heap_summary : GCHeapSummary)
        (perm_gen_summary : PermGenSummary),
        (g.report_gc_heap_summary w heap_summary perm_gen_summary).1 = g)
    ∧ (∀ (g : GCTracer) (rp : ReferenceProcessorStats),
        (g.report_gc_reference_stats rp).1 = g)
    ∧ (∀ y : YoungGCTracer,
        ({ y with _young_gc_info := y.young_gc_info.register_promotion_failed } :
          YoungGCTracer).toGCTracer = y.toGCTracer)
    ∧ (∀ (t : ParallelOldTracer) (addr : VoidPtr),
        ({ t with
            _parallel_old_gc_info := t._parallel_old_gc_info.report_dense_prefix addr } :
          ParallelOldTracer).toGCTracer = t.toGCTracer)
    ∧ (∀ (t : G1NewTracer) (type : G1YCType),
        ({ t with _g1_young_gc_info := t._g1_young_gc_info.set_type type } :
          G1NewTracer).toGCTracer = t.toGCTracer)
    ∧ (∀ (y : YoungGCTracer) (size : size_t) (count : uint),
        (y.report_promotion_failed size count).1._shared_gc_info = y._shared_gc_info
        ∧ (y.report_promotion_failed size count).1.toGCTracer.has_reported_gc_start
            = y.toGCTracer.has_reported_gc_start)
    ∧ (∀ (t : ParallelOldTracer) (addr : VoidPtr),
        (ParallelOldTracer.report_dense_prefix t addr).1._shared_gc_info = t._shared_gc_info
        ∧ (ParallelOldTracer.report_dense_prefix t addr).1.toGCTracer.has_reported_gc_start
            = t.toGCTracer.has_reported_gc_start)
    ∧ (∀ (t : G1NewTracer) (type : G1YCType),
        (t.report_yc_type type).1._shared_gc_info = t._shared_gc_info
        ∧ (t.report_yc_type type).1.toGCTracer.has_reported_gc_start
            = t.toGCTracer.has_reported_gc_start) :=
  ⟨fun _ _ _ _ => rfl, fun _ _ => rfl, fun _ => rfl, fun _ _ => rfl, fun _ _ => rfl,
    fun _ _ _ => ⟨rfl, rfl⟩, fun _ _ => ⟨rfl, rfl⟩, fun _ _ => ⟨rfl, rfl⟩⟩
